import Mathlib

/-!
Shallow embedding of `src/posts.py` (bulk creation of Discourse topics).

The Python program is embedded as pure Lean functions.  I/O boundaries
(the HTTP session, the file system) are modelled by explicit oracle
arguments of type `Except String _`: an `Except.error` value represents a
Python exception raised at that boundary, and a function returning
`Except.error` models the exception propagating to the caller.
-/

namespace DiscoursePosts

/-- JSON values, as parsed by `response.json()` / `json.load`. -/
inductive Json where
  | null
  | bool (b : Bool)
  | num (n : Int)
  | str (s : String)
  | arr (elems : List Json)
  | obj (fields : List (String × Json))

/-- Python truthiness of a JSON value (`if response:` in the logging loop):
`None`, `False`, `0`, `""`, `[]` and the empty dict are falsy. -/
def Json.truthy : Json → Bool
  | .null => false
  | .bool b => b
  | .num n => n != 0
  | .str s => s != ""
  | .arr elems => !elems.isEmpty
  | .obj fields => !fields.isEmpty

/-- Python subscript `j[k]` on a parsed JSON value: a key lookup on a dict,
raising `KeyError` when the key is missing, `TypeError` on non-dicts
(`response[..]` with the key `post_number`, line 145). -/
def Json.getKey : Json → String → Except String Json
  | .obj fields, k =>
    match fields.find? (fun p => p.1 == k) with
    | some p => Except.ok p.2
    | none => Except.error ("KeyError: " ++ k)
  | _, k => Except.error ("TypeError: not subscriptable: " ++ k)

/-- Python `str()` rendering used inside the log f-strings; containers are
abbreviated, which is irrelevant to every property proved below. -/
def Json.toDisplay : Json → String
  | .null => "None"
  | .bool b => if b then "True" else "False"
  | .num n => toString n
  | .str s => s
  | .arr _ => "<list>"
  | .obj _ => "<dict>"

/-- Python `str()` of an `Optional[str]` (the interpolation of `title`
into the log f-strings, with `title` possibly `None`). -/
def pyStr : Option String → String
  | none => "None"
  | some s => s

/-- The scan of Python `str.replace`: at each position, if the pattern
starts here, emit the replacement and skip past the pattern, otherwise
keep the character; every non-overlapping occurrence is replaced, left to
right.  The `fuel` argument only forces structural recursion; every call
below supplies `fuel ≥ length of the text`, and each step consumes at
least one character per unit of fuel, so the fuel never runs out. -/
def replaceAux (pat rep : List Char) : Nat → List Char → List Char
  | _, [] => []
  | 0, l => l
  | fuel + 1, c :: cs =>
    if pat.isPrefixOf (c :: cs) then
      rep ++ replaceAux pat rep fuel (cs.drop (pat.length - 1))
    else
      c :: replaceAux pat rep fuel cs

/-- Python `body.replace(pat, rep)` (line 85), for a non-empty pattern. -/
def pyReplace (s pat rep : String) : String :=
  ⟨replaceAux pat.data rep.data s.data.length s.data⟩

/-- Python `pat in s` over the same scan as `replaceAux`: does the pattern
occur anywhere in the text? -/
def containsPat (pat : List Char) : List Char → Bool
  | [] => pat.isEmpty
  | c :: cs => pat.isPrefixOf (c :: cs) || containsPat pat cs

/-- The `formatting` dict (lines 69-75).  A falsy dict (`None` or the
empty dict) is embedded as `none`; a truthy dict as `some` of its three
flags, each flag being the truthiness of `formatting.get(...)`. -/
structure Formatting where
  bold : Bool := false
  italic : Bool := false
  header : Bool := false
deriving Repr, DecidableEq

/-- Lines 69-75 of `create_topic`: wrap in bold markers, then italic
markers, then prepend the header marker, each step applied to the current
body. -/
def applyFormatting (formatting : Option Formatting) (body : String) : String :=
  match formatting with
  | none => body
  | some f =>
    let body := if f.bold then "**" ++ body ++ "**" else body
    let body := if f.italic then "*" ++ body ++ "*" else body
    if f.header then "# " ++ body else body

/-- Lines 78-85 of `create_topic`: splice the image markdown into the body
according to `image_position`.  `if image_url:` is Python truthiness, so
`None` and the empty string both skip the block; an unrecognized position
leaves the body unchanged. -/
def insertImage (image_url : Option String) (image_position : String)
    (body : String) : String :=
  match image_url with
  | none => body
  | some u =>
    if u == "" then body
    else
      let image_markdown := "![Image](" ++ u ++ ")"
      if image_position == "start" then image_markdown ++ "\n\n" ++ body
      else if image_position == "end" then body ++ "\n\n" ++ image_markdown
      else if image_position == "inline" then pyReplace body "[IMAGE]" image_markdown
      else body

/-- A topic descriptor as read from the input JSON, with the defaults of
the `topic.get(...)` calls on lines 117-124 baked in: `body` defaults to
`""`, `image_position` to `"end"`, and a falsy `formatting` dict is
`none`. -/
structure Topic where
  title : Option String := none
  body : String := ""
  category : Option Int := none
  image_url : Option String := none
  image_position : String := "end"
  formatting : Option Formatting := none
  embed_url : Option String := none
  external_id : Option String := none
deriving Repr, DecidableEq

/-- A credential dict from `users_info` (lines 174-185): an association
list from key to value.  A key may be present with value `none` (os.getenv
returning `None`) or absent altogether. -/
def PyDict : Type := List (String × Option String)

instance : DecidableEq PyDict := inferInstanceAs (DecidableEq (List (String × Option String)))

instance : Inhabited PyDict := ⟨([] : List (String × Option String))⟩

/-- Python subscript `d[k]` on a credential dict (lines 129-130): raises
`KeyError` when the key is absent. -/
def dictGet (d : PyDict) (k : String) : Except String (Option String) :=
  match List.find? (fun p => p.1 == k) d with
  | some p => Except.ok p.2
  | none => Except.error ("KeyError: " ++ k)

/-- The value stored under `k` in a credential dict, `none` when the key
is absent or stores `None`. -/
def dictValue (d : PyDict) (k : String) : Option String :=
  match List.find? (fun p => p.1 == k) d with
  | some p => p.2
  | none => none

/-- Whether the credential dict has an entry for `k`. -/
def hasKey (d : PyDict) (k : String) : Bool :=
  (List.find? (fun p => p.1 == k) d).isSome

/-- Python `a or b` on optional strings (lines 92-93): `a` wins exactly
when it is truthy, i.e. a non-empty string. -/
def pyOrStr (a b : Option String) : Option String :=
  match a with
  | none => b
  | some s => if s == "" then b else some s

/-- The two credential request headers (lines 91-95); the constant
`Content-Type` header is not modelled. -/
structure Headers where
  api_key : Option String
  api_username : Option String
deriving Repr, DecidableEq

/-- Lines 91-95 of `create_topic`: each header falls back to the global
default (`API_KEY` / `API_USERNAME`) via Python `or`. -/
def create_topic_headers (user_api_key user_api_username : Option String)
    (default_api_key default_api_username : Option String) : Headers :=
  { api_key := pyOrStr user_api_key default_api_key
    api_username := pyOrStr user_api_username default_api_username }

/-- Lines 57-66 of `create_topic`: the initial `data` dict with `None`
values removed, in insertion order title, raw, category, embed_url,
external_id. -/
def initialData (title : Option String) (body : String) (category : Option Int)
    (embed_url external_id : Option String) : List (String × Json) :=
  List.filterMap (fun p => match p.2 with | some v => some (p.1, v) | none => none)
    [("title", title.map Json.str),
     ("raw", some (Json.str body)),
     ("category", category.map Json.num),
     ("embed_url", embed_url.map Json.str),
     ("external_id", external_id.map Json.str)]

/-- Python dict assignment `data[k] = v` (line 88): replaces the value in
place when the key is present, appends otherwise. -/
def setKey (fields : List (String × Json)) (k : String) (v : Json) :
    List (String × Json) :=
  if fields.any (fun p => p.1 == k) then
    fields.map (fun p => if p.1 == k then (k, v) else p)
  else fields ++ [(k, v)]

/-- The full payload construction of `create_topic` (lines 57-88): the
filtered initial dict, whose `raw` entry is finally overwritten with the
formatted body after image insertion. -/
def create_topic_payload (title : Option String) (body : String)
    (category : Option Int) (image_url : Option String) (image_position : String)
    (formatting : Option Formatting) (embed_url external_id : Option String) :
    List (String × Json) :=
  setKey (initialData title body category embed_url external_id) "raw"
    (Json.str (insertImage image_url image_position (applyFormatting formatting body)))

/-- The `raw` entry of a payload dict. -/
def getRaw (fields : List (String × Json)) : Option Json :=
  (List.find? (fun p => p.1 == "raw") fields).map (fun p => p.2)

/-- Lines 37-103: the whole of `create_topic`.  The network interaction of
lines 98-100 (`session.post`, `raise_for_status`, `response.json()`) is an
oracle from the payload and headers to `Except String Json`; an
`Except.error` is the raised exception.  The result is the returned value
(`some` response or `None`) paired with the error log lines emitted. -/
def create_topic (title : Option String) (body : String) (category : Option Int)
    (image_url : Option String) (image_position : String)
    (formatting : Option Formatting) (embed_url external_id : Option String)
    (user_api_key user_api_username : Option String)
    (default_api_key default_api_username : Option String)
    (net : List (String × Json) → Headers → Except String Json) :
    Option Json × List String :=
  let data := create_topic_payload title body category image_url image_position
    formatting embed_url external_id
  let headers := create_topic_headers user_api_key user_api_username
    default_api_key default_api_username
  match net data headers with
  | Except.ok j => (some j, [])
  | Except.error err =>
    (none, ["Error creating topic " ++ pyStr title ++ ": " ++ err])

/-- Sequencing of a Python loop whose body may raise: the first raised
exception aborts the loop and propagates; otherwise the list of results is
collected in order. -/
def seqTasks {α β : Type} (f : α → Except String β) : List α → Except String (List β)
  | [] => Except.ok []
  | a :: as =>
    match f a with
    | Except.error e => Except.error e
    | Except.ok b =>
      match seqTasks f as with
      | Except.error e => Except.error e
      | Except.ok bs => Except.ok (b :: bs)

/-- Lines 127-133 of `add_multiple_topics`: the credential pair for the
topic at index `i`.  An empty (falsy) `users_info` yields `(None, None)`;
otherwise the dict at index `i % len(users_info)` is subscripted, raising
`KeyError` when a key is absent. -/
def credentialsFor (users_info : List PyDict) (i : Nat) :
    Except String (Option String × Option String) :=
  match users_info with
  | [] => Except.ok (none, none)
  | _ :: _ =>
    let user_info := users_info.getD (i % users_info.length) ([] : PyDict)
    match dictGet user_info "api_key" with
    | Except.error e => Except.error e
    | Except.ok k =>
      match dictGet user_info "username" with
      | Except.error e => Except.error e
      | Except.ok u => Except.ok (k, u)

/-- Lines 142-147 of `add_multiple_topics`: one iteration of the logging
loop.  The success/failure split is `if response:` — Python truthiness —
and the success line subscripts the response with `post_number`, which can
raise. -/
def logResult (response : Option Json) (topic : Topic) : Except String String :=
  match response with
  | some j =>
    if j.truthy then
      match j.getKey "post_number" with
      | Except.ok v =>
        Except.ok ("Created topic " ++ pyStr topic.title ++ " with ID " ++ v.toDisplay)
      | Except.error e => Except.error e
    else Except.ok ("Failed to create topic " ++ pyStr topic.title)
  | none => Except.ok ("Failed to create topic " ++ pyStr topic.title)

/-- Lines 106-147: the whole of `add_multiple_topics`.  `net i` is the
network oracle for the request of topic index `i`.  The task-creation loop
evaluates the credential selection eagerly (it can raise `KeyError`);
`asyncio.gather` then yields each `create_topic` result, which never
raises; finally the logging loop runs and can itself raise.  The result is
the list of log lines of the final loop, or the first exception
propagated to the caller. -/
def add_multiple_topics (topics : List Topic) (users_info : List PyDict)
    (net : Nat → List (String × Json) → Headers → Except String Json)
    (default_api_key default_api_username : Option String) :
    Except String (List String) :=
  match seqTasks (fun p =>
      match credentialsFor users_info p.1 with
      | Except.error e => Except.error e
      | Except.ok cred =>
        Except.ok (create_topic p.2.title p.2.body p.2.category p.2.image_url
          p.2.image_position p.2.formatting p.2.embed_url p.2.external_id
          cred.1 cred.2 default_api_key default_api_username (net p.1)))
    topics.enum with
  | Except.error e => Except.error e
  | Except.ok tasks =>
    let responses := tasks.map Prod.fst
    seqTasks (fun rt => logResult rt.1 rt.2) (responses.zip topics)

/-- The per-topic credential assignment performed by the task-creation
loop of `add_multiple_topics` (lines 127-133), in topic order. -/
def assignedCreds (topics : List Topic) (users_info : List PyDict) :
    Except String (List (Option String × Option String)) :=
  seqTasks (credentialsFor users_info) (List.range topics.length)

/-- Lines 150-166: `load_topics_from_json`.  The body of the `try` block
(`open` + `json.load`) is an oracle `Except String Json`; the `except`
clause catches every exception and returns the empty list. -/
def load_topics_from_json (readAndParse : Except String Json) : Json :=
  match readAndParse with
  | Except.ok topics => topics
  | Except.error _ => Json.arr []

/-! Helper lemmas. -/

theorem isPrefixOf_append_self (xs ys : List Char) :
    List.isPrefixOf xs (xs ++ ys) = true := by
  induction xs with
  | nil => simp [List.isPrefixOf]
  | cons x xs ih => simp [List.isPrefixOf, ih]

theorem replaceAux_nil (pat rep : List Char) (fuel : Nat) :
    replaceAux pat rep fuel [] = [] := by
  cases fuel <;> rfl

theorem replaceAux_congr (pat rep : List Char) :
    ∀ fuel fuel' l, l.length ≤ fuel → l.length ≤ fuel' →
      replaceAux pat rep fuel l = replaceAux pat rep fuel' l := by
  intro fuel
  induction fuel with
  | zero =>
    intro fuel' l hl _
    have : l = [] := List.eq_nil_of_length_eq_zero (Nat.le_zero.mp hl)
    subst this
    rw [replaceAux_nil, replaceAux_nil]
  | succ fuel ih =>
    intro fuel' l hl hl'
    cases l with
    | nil => rw [replaceAux_nil, replaceAux_nil]
    | cons c cs =>
      cases fuel' with
      | zero => exact absurd hl' (by simp)
      | succ fuel' =>
        simp only [replaceAux]
        by_cases hpre : List.isPrefixOf pat (c :: cs) = true
        · rw [if_pos hpre, if_pos hpre]
          have hd : (cs.drop (pat.length - 1)).length ≤ cs.length := by
            simp only [List.length_drop]
            omega
          have h1 : (cs.drop (pat.length - 1)).length ≤ fuel := by
            simp only [List.length_cons] at hl
            omega
          have h2 : (cs.drop (pat.length - 1)).length ≤ fuel' := by
            simp only [List.length_cons] at hl'
            omega
          rw [ih fuel' _ h1 h2]
        · rw [if_neg hpre, if_neg hpre]
          have h1 : cs.length ≤ fuel := by
            simp only [List.length_cons] at hl
            omega
          have h2 : cs.length ≤ fuel' := by
            simp only [List.length_cons] at hl'
            omega
          rw [ih fuel' _ h1 h2]

theorem replaceAux_not_contains (pat rep : List Char) :
    ∀ (l : List Char) fuel, containsPat pat l = false →
      replaceAux pat rep fuel l = l := by
  intro l
  induction l with
  | nil => intro fuel _; exact replaceAux_nil pat rep fuel
  | cons c cs ih =>
    intro fuel hc
    simp only [containsPat, Bool.or_eq_false_iff] at hc
    cases fuel with
    | zero => rfl
    | succ fuel =>
      simp only [replaceAux, hc.1, Bool.false_eq_true, if_false]
      rw [ih fuel hc.2]

theorem replaceAux_step (p0 : Char) (pt rep : List Char) (fuel : Nat)
    (rest : List Char) :
    replaceAux (p0 :: pt) rep (fuel + 1) ((p0 :: pt) ++ rest)
      = rep ++ replaceAux (p0 :: pt) rep fuel rest := by
  have hpre : List.isPrefixOf (p0 :: pt) ((p0 :: pt) ++ rest) = true :=
    isPrefixOf_append_self _ _
  simp only [List.cons_append] at hpre ⊢
  simp only [replaceAux, hpre, if_true]
  congr 1
  have : (p0 :: pt).length - 1 = pt.length := by simp
  rw [this, List.drop_left]

theorem pyReplace_no_token (body pat rep : String)
    (h : containsPat pat.data body.data = false) :
    pyReplace body pat rep = body := by
  unfold pyReplace
  rw [replaceAux_not_contains pat.data rep.data body.data body.data.length h]

theorem pyReplace_head (rest md : String) :
    pyReplace ("[IMAGE]" ++ rest) "[IMAGE]" md
      = md ++ pyReplace rest "[IMAGE]" md := by
  have hdata : ("[IMAGE]" ++ rest).data = "[IMAGE]".data ++ rest.data := rfl
  have hpat : "[IMAGE]".data = '[' :: "IMAGE]".data := rfl
  unfold pyReplace
  apply String.ext
  show replaceAux "[IMAGE]".data md.data ("[IMAGE]" ++ rest).data.length
      ("[IMAGE]" ++ rest).data = (md ++ ⟨_⟩).data
  rw [hdata]
  have hlen : ("[IMAGE]".data ++ rest.data).length = rest.data.length + 7 := by
    simp [hpat]
  rw [hlen, hpat]
  rw [show rest.data.length + 7 = (rest.data.length + 6) + 1 from rfl]
  rw [replaceAux_step]
  rw [replaceAux_congr _ _ (rest.data.length + 6) rest.data.length rest.data
    (by omega) (Nat.le_refl _)]
  rfl

theorem seqTasks_ok_map {α β : Type} (f : α → Except String β) (g : α → β) :
    ∀ l : List α, (∀ a ∈ l, f a = Except.ok (g a)) →
      seqTasks f l = Except.ok (l.map g) := by
  intro l
  induction l with
  | nil => intro _; rfl
  | cons a as ih =>
    intro h
    have ha := h a (List.mem_cons_self a as)
    have has := ih (fun x hx => h x (List.mem_cons_of_mem a hx))
    simp only [seqTasks, ha, has, List.map_cons]

theorem seqTasks_isOk {α β : Type} (f : α → Except String β) :
    ∀ l : List α, (∀ a ∈ l, ∃ b, f a = Except.ok b) →
      ∃ bs, seqTasks f l = Except.ok bs := by
  intro l
  induction l with
  | nil => intro _; exact ⟨[], rfl⟩
  | cons a as ih =>
    intro h
    obtain ⟨b, hb⟩ := h a (List.mem_cons_self a as)
    obtain ⟨bs, hbs⟩ := ih (fun x hx => h x (List.mem_cons_of_mem a hx))
    exact ⟨b :: bs, by simp only [seqTasks, hb, hbs]⟩

theorem seqTasks_mem {α β : Type} (f : α → Except String β) :
    ∀ (l : List α) (bs : List β), seqTasks f l = Except.ok bs →
      ∀ b ∈ bs, ∃ a ∈ l, f a = Except.ok b := by
  intro l
  induction l with
  | nil =>
    intro bs hbs b hb
    simp only [seqTasks] at hbs
    cases hbs
    exact absurd hb (List.not_mem_nil b)
  | cons a as ih =>
    intro bs hbs b hb
    simp only [seqTasks] at hbs
    cases hfa : f a with
    | error e => rw [hfa] at hbs; cases hbs
    | ok b0 =>
      rw [hfa] at hbs
      cases hrec : seqTasks f as with
      | error e => rw [hrec] at hbs; cases hbs
      | ok bs0 =>
        rw [hrec] at hbs
        cases hbs
        rcases List.mem_cons.mp hb with rfl | hb0
        · exact ⟨a, List.mem_cons_self a as, hfa⟩
        · obtain ⟨x, hx, hfx⟩ := ih bs0 hrec b hb0
          exact ⟨x, List.mem_cons_of_mem a hx, hfx⟩

theorem map_const_eq_replicate {α β : Type} (l : List α) (c : β) :
    l.map (fun _ => c) = List.replicate l.length c := by
  induction l with
  | nil => rfl
  | cons a as ih => simp [List.replicate, ih]

theorem getD_mem_of_ne_nil (l : List PyDict) (h : l ≠ []) (i : Nat) :
    l.getD (i % l.length) ([] : PyDict) ∈ l := by
  have hpos : 0 < l.length := List.length_pos.mpr h
  have hlt : i % l.length < l.length := Nat.mod_lt i hpos
  rw [List.getD_eq_getElem l ([] : PyDict) hlt]
  exact List.getElem_mem hlt

theorem dictGet_of_hasKey (d : PyDict) (k : String) (h : hasKey d k = true) :
    dictGet d k = Except.ok (dictValue d k) := by
  unfold hasKey at h
  unfold dictGet dictValue
  cases hf : List.find? (fun p => p.1 == k) d with
  | none => rw [hf] at h; simp at h
  | some p => rfl

theorem credentialsFor_ok (users_info : List PyDict)
    (hkeys : ∀ d ∈ users_info, hasKey d "api_key" = true ∧ hasKey d "username" = true)
    (i : Nat) :
    credentialsFor users_info i
      = Except.ok
          (dictValue (users_info.getD (i % users_info.length) ([] : PyDict)) "api_key",
           dictValue (users_info.getD (i % users_info.length) ([] : PyDict)) "username") := by
  cases users_info with
  | nil => rfl
  | cons d ds =>
    have hmem := getD_mem_of_ne_nil (d :: ds) (List.cons_ne_nil d ds) i
    obtain ⟨h1, h2⟩ := hkeys _ hmem
    simp only [credentialsFor]
    rw [dictGet_of_hasKey _ _ h1, dictGet_of_hasKey _ _ h2]

theorem getRaw_create_topic_payload (title : Option String) (body : String)
    (category : Option Int) (image_url : Option String) (pos : String)
    (fmt : Option Formatting) (eu ei : Option String) :
    getRaw (create_topic_payload title body category image_url pos fmt eu ei)
      = some (Json.str (insertImage image_url pos (applyFormatting fmt body))) := by
  cases title <;> cases category <;> cases eu <;> cases ei <;> rfl

theorem create_topic_payload_eq (title : Option String) (body : String)
    (category : Option Int) (image_url : Option String) (pos : String)
    (fmt : Option Formatting) (eu ei : Option String) :
    create_topic_payload title body category image_url pos fmt eu ei
      = (title.toList.map (fun t => ("title", Json.str t)))
        ++ [("raw", Json.str (insertImage image_url pos (applyFormatting fmt body)))]
        ++ (category.toList.map (fun c => ("category", Json.num c)))
        ++ (eu.toList.map (fun u => ("embed_url", Json.str u)))
        ++ (ei.toList.map (fun x => ("external_id", Json.str x))) := by
  cases title <;> cases category <;> cases eu <;> cases ei <;> rfl

theorem url_beq_false {url : String} (h : url ≠ "") : (url == "") = false :=
  beq_eq_false_iff_ne.mpr h

theorem logResult_ok (response : Option Json) (t : Topic)
    (h : ∀ j, response = some j → j.truthy = true →
      ∃ v, Json.getKey j "post_number" = Except.ok v) :
    ∃ s, logResult response t = Except.ok s := by
  cases response with
  | none => exact ⟨_, rfl⟩
  | some j =>
    cases hj : j.truthy with
    | false =>
      refine ⟨"Failed to create topic " ++ pyStr t.title, ?_⟩
      simp [logResult, hj]
    | true =>
      obtain ⟨v, hv⟩ := h j rfl hj
      refine ⟨"Created topic " ++ pyStr t.title ++ " with ID " ++ v.toDisplay, ?_⟩
      simp [logResult, hj, hv]

/-! Claim theorems. -/

/-- C1 (counterexample): for the topic with body `X`, all three formatting
flags true and no image, the raw body built by `create_topic` is
`# ***X***`, which is not the string `# *(**X**)*` that the claim
asserts. -/
theorem c1_counterexample :
    getRaw (create_topic_payload (some "t") "X" none none "end"
        (some { bold := true, italic := true, header := true }) none none)
      = some (Json.str "# ***X***") ∧ "# ***X***" ≠ "# *(**X**)*" :=
  ⟨rfl, by decide⟩

/-- C1 (amended): for every topic whose formatting flags bold, italic and
header are all true and whose body is `X` (no image URL), the raw body
equals `# ***X***`, obtained by wrapping in bold markers, then italic
markers, then prepending the header marker (header outermost). -/
theorem c1_formatting_order (title : Option String) (category : Option Int)
    (pos : String) (eu ei : Option String) :
    getRaw (create_topic_payload title "X" category none pos
        (some { bold := true, italic := true, header := true }) eu ei)
      = some (Json.str "# ***X***") := by
  rw [getRaw_create_topic_payload]
  rfl

/-- C2 (counterexample): with `image_position = inline` and a body holding
two placeholder tokens, both occurrences are substituted, not only the
first one as the claim asserts. -/
theorem c2_counterexample :
    getRaw (create_topic_payload (some "t") "A[IMAGE]B[IMAGE]" none (some "u")
        "inline" none none none)
      = some (Json.str "A![Image](u)B![Image](u)") ∧
    "A![Image](u)B![Image](u)" ≠ "A![Image](u)B[IMAGE]" :=
  ⟨rfl, by decide⟩

/-- C2 (amended): for a topic with a (non-empty) image URL and
`image_position = inline`, every occurrence of the literal token `[IMAGE]`
in the already formatted body is substituted with the image markdown, left
to right and non-overlapping (Python `str.replace`); if the body contains
no such token, the body is left unchanged and the image is silently
dropped.  The last conjunct exhibits the left-to-right substitution step
on a body starting with the token. -/
theorem c2_inline_image (body rest url : String) (hurl : url ≠ "") :
    insertImage (some url) "inline" body
        = pyReplace body "[IMAGE]" ("![Image](" ++ url ++ ")") ∧
    (containsPat "[IMAGE]".data body.data = false →
        insertImage (some url) "inline" body = body) ∧
    pyReplace ("[IMAGE]" ++ rest) "[IMAGE]" ("![Image](" ++ url ++ ")")
        = "![Image](" ++ url ++ ")" ++ pyReplace rest "[IMAGE]" ("![Image](" ++ url ++ ")") := by
  have h : (url == "") = false := url_beq_false hurl
  refine ⟨?_, ?_, pyReplace_head rest ("![Image](" ++ url ++ ")")⟩
  · simp only [insertImage, h, Bool.false_eq_true, if_false]
    rfl
  · intro hno
    simp only [insertImage, h, Bool.false_eq_true, if_false]
    show pyReplace body "[IMAGE]" ("![Image](" ++ url ++ ")") = body
    exact pyReplace_no_token body "[IMAGE]" ("![Image](" ++ url ++ ")") hno

/-- C2 witness: the amended theorem applied to a concrete body, suffix and
URL. -/
theorem c2_inline_image_witness :
    insertImage (some "u") "inline" "A[IMAGE]B"
        = pyReplace "A[IMAGE]B" "[IMAGE]" ("![Image](" ++ "u" ++ ")") ∧
    (containsPat "[IMAGE]".data "A[IMAGE]B".data = false →
        insertImage (some "u") "inline" "A[IMAGE]B" = "A[IMAGE]B") ∧
    pyReplace ("[IMAGE]" ++ "C") "[IMAGE]" ("![Image](" ++ "u" ++ ")")
        = "![Image](" ++ "u" ++ ")" ++ pyReplace "C" "[IMAGE]" ("![Image](" ++ "u" ++ ")") :=
  c2_inline_image "A[IMAGE]B" "C" "u" (by decide)

/-- C3 (counterexample): `add_multiple_topics` does raise to its caller
for some per-topic results: a submission whose parsed response is a truthy
object without a `post_number` field makes the logging loop raise
`KeyError`, which propagates (modelled as `Except.error`).  The claim that
the batch completes normally regardless of the contents of each per-topic
result is therefore false. -/
theorem c3_counterexample :
    add_multiple_topics [{ title := some "t" }] []
        (fun _ _ _ => Except.ok (Json.obj [("id", Json.num 5)])) none none
      = Except.error ("KeyError: post_number") := rfl

/-- C3 (amended): `add_multiple_topics` completes normally — nothing is
raised to its caller — provided every credential dict supplies both the
`api_key` and `username` keys and every truthy success payload contains a
`post_number` field; both provisos hold for the data the program itself
constructs. -/
theorem c3_batch_no_raise (topics : List Topic) (users_info : List PyDict)
    (net : Nat → List (String × Json) → Headers → Except String Json)
    (dak dau : Option String)
    (hcred : ∀ d ∈ users_info, hasKey d "api_key" = true ∧ hasKey d "username" = true)
    (hnet : ∀ i data hdr j, net i data hdr = Except.ok j → j.truthy = true →
      ∃ v, Json.getKey j "post_number" = Except.ok v) :
    ∃ logs, add_multiple_topics topics users_info net dak dau = Except.ok logs := by
  unfold add_multiple_topics
  have htasks := seqTasks_ok_map
    (fun p : Nat × Topic =>
      match credentialsFor users_info p.1 with
      | Except.error e => Except.error e
      | Except.ok cred =>
        Except.ok (create_topic p.2.title p.2.body p.2.category p.2.image_url
          p.2.image_position p.2.formatting p.2.embed_url p.2.external_id
          cred.1 cred.2 dak dau (net p.1)))
    (fun p : Nat × Topic =>
      create_topic p.2.title p.2.body p.2.category p.2.image_url
        p.2.image_position p.2.formatting p.2.embed_url p.2.external_id
        (dictValue (users_info.getD (p.1 % users_info.length) ([] : PyDict)) "api_key")
        (dictValue (users_info.getD (p.1 % users_info.length) ([] : PyDict)) "username")
        dak dau (net p.1))
    topics.enum
    (by
      intro p _
      simp only [credentialsFor_ok users_info hcred p.1])
  rw [htasks]
  apply seqTasks_isOk
  intro rt hrt
  obtain ⟨r, t⟩ := rt
  have hr : r ∈ (topics.enum.map _).map Prod.fst := (List.of_mem_zip hrt).1
  obtain ⟨task, htaskmem, hfst⟩ := List.mem_map.mp hr
  obtain ⟨p, _, rfl⟩ := List.mem_map.mp htaskmem
  subst hfst
  refine logResult_ok _ t ?_
  intro j hj htr
  simp only [create_topic] at hj
  cases hnp : net p.1
      (create_topic_payload p.2.title p.2.body p.2.category p.2.image_url
        p.2.image_position p.2.formatting p.2.embed_url p.2.external_id)
      (create_topic_headers
        (dictValue (users_info.getD (p.1 % users_info.length) ([] : PyDict)) "api_key")
        (dictValue (users_info.getD (p.1 % users_info.length) ([] : PyDict)) "username")
        dak dau) with
  | error e =>
    rw [hnp] at hj
    simp at hj
  | ok j0 =>
    rw [hnp] at hj
    simp only [Option.some.injEq] at hj
    cases hj
    exact hnet p.1 _ _ j hnp htr

/-- C3 witness: the amended theorem applied to a concrete batch whose
submissions all fail. -/
theorem c3_batch_no_raise_witness :
    ∃ logs, add_multiple_topics [{ title := some "t" }] []
        (fun _ _ _ => Except.error "boom") none none = Except.ok logs :=
  c3_batch_no_raise [{ title := some "t" }] []
    (fun _ _ _ => Except.error "boom") none none
    (by intro d hd; exact absurd hd (List.not_mem_nil d))
    (fun i data hdr j h _ => Except.noConfusion h)

/-- C4: for every topics list and non-empty credential list whose dicts
carry both keys, the task-creation loop assigns to the topic at index `i`
exactly the credential pair stored at index `i mod M`; pairs are reused
cyclically once the topics outnumber the pairs. -/
theorem c4_round_robin (topics : List Topic) (users_info : List PyDict)
    (_hne : users_info ≠ [])
    (hkeys : ∀ d ∈ users_info, hasKey d "api_key" = true ∧ hasKey d "username" = true) :
    assignedCreds topics users_info
      = Except.ok ((List.range topics.length).map (fun i =>
          (dictValue (users_info.getD (i % users_info.length) ([] : PyDict)) "api_key",
           dictValue (users_info.getD (i % users_info.length) ([] : PyDict)) "username"))) := by
  unfold assignedCreds
  exact seqTasks_ok_map _ _ _ (fun i _ => credentialsFor_ok users_info hkeys i)

/-- C4 witness: three topics over two concrete credential pairs, the third
topic wrapping around to the first pair. -/
theorem c4_round_robin_witness :
    assignedCreds (List.replicate 3 ({} : Topic))
        [[("api_key", some "k1"), ("username", some "u1")],
         [("api_key", some "k2"), ("username", some "u2")]]
      = Except.ok [(some "k1", some "u1"), (some "k2", some "u2"), (some "k1", some "u1")] :=
  c4_round_robin (List.replicate 3 ({} : Topic))
    [[("api_key", some "k1"), ("username", some "u1")],
     [("api_key", some "k2"), ("username", some "u2")]]
    (by decide) (by decide)

/-- C5: the payload built by `create_topic` contains exactly the non-absent
fields among title, raw, category, embed_url and external_id, in that
order, with no extra entries and no null value — the raw entry holding
the fully transformed body. -/
theorem c5_payload_exact (title : Option String) (body : String)
    (category : Option Int) (image_url : Option String) (pos : String)
    (fmt : Option Formatting) (eu ei : Option String) :
    create_topic_payload title body category image_url pos fmt eu ei
        = (title.toList.map (fun t => ("title", Json.str t)))
          ++ [("raw", Json.str (insertImage image_url pos (applyFormatting fmt body)))]
          ++ (category.toList.map (fun c => ("category", Json.num c)))
          ++ (eu.toList.map (fun u => ("embed_url", Json.str u)))
          ++ (ei.toList.map (fun x => ("external_id", Json.str x))) ∧
    ∀ kv ∈ create_topic_payload title body category image_url pos fmt eu ei,
      kv.2 ≠ Json.null := by
  refine ⟨create_topic_payload_eq title body category image_url pos fmt eu ei, ?_⟩
  intro kv hkv
  rw [create_topic_payload_eq] at hkv
  simp only [List.mem_append, List.mem_map, List.mem_singleton] at hkv
  rcases hkv with ((((⟨s, _, rfl⟩ | rfl) | ⟨c, _, rfl⟩) | ⟨u, _, rfl⟩) | ⟨x, _, rfl⟩) <;>
    exact fun hnull => Json.noConfusion hnull

/-- C6: with an empty or absent credential list every topic is assigned
the pair (None, None), so each request header falls back to the single
global default credential pair; and whenever an individually assigned
value is absent (None), the corresponding default value is used in its
place, field by field. -/
theorem c6_default_credentials (topics : List Topic) (k u dak dau : Option String) :
    assignedCreds topics ([] : List PyDict)
        = Except.ok (List.replicate topics.length (none, none)) ∧
    create_topic_headers none u dak dau
        = { api_key := dak, api_username := pyOrStr u dau } ∧
    create_topic_headers k none dak dau
        = { api_key := pyOrStr k dak, api_username := dau } ∧
    create_topic_headers none none dak dau
        = { api_key := dak, api_username := dau } := by
  refine ⟨?_, rfl, rfl, rfl⟩
  unfold assignedCreds
  rw [seqTasks_ok_map (credentialsFor ([] : List PyDict))
    (fun _ => (none, none)) (List.range topics.length) (fun i _ => rfl)]
  rw [map_const_eq_replicate, List.length_range]

/-- C7: `load_topics_from_json` never raises: every read or parse error is
caught and the empty list is returned, and on success the parsed JSON
content is returned as is. -/
theorem c7_load_topics_total :
    (∀ e, load_topics_from_json (Except.error e) = Json.arr []) ∧
    (∀ j, load_topics_from_json (Except.ok j) = j) :=
  ⟨fun _ => rfl, fun _ => rfl⟩

/-- C8: for every single-topic submission, `create_topic` returns the
parsed response body as the success payload when the network interaction
succeeds, and on any exception it swallows the exception, logs an error
line naming the topic title, and returns the failure marker None. -/
theorem c8_create_topic_swallows (title : Option String) (body : String)
    (category : Option Int) (image_url : Option String) (pos : String)
    (fmt : Option Formatting) (eu ei uak uau dak dau : Option String)
    (net : List (String × Json) → Headers → Except String Json)
    (j : Json) (e : String) :
    (net (create_topic_payload title body category image_url pos fmt eu ei)
        (create_topic_headers uak uau dak dau) = Except.ok j →
      create_topic title body category image_url pos fmt eu ei uak uau dak dau net
        = (some j, [])) ∧
    (net (create_topic_payload title body category image_url pos fmt eu ei)
        (create_topic_headers uak uau dak dau) = Except.error e →
      create_topic title body category image_url pos fmt eu ei uak uau dak dau net
        = (none, ["Error creating topic " ++ pyStr title ++ ": " ++ e])) := by
  constructor <;> intro h <;> simp only [create_topic, h]

/-- C8 witness: a concrete submission whose network call raises is
swallowed into the failure marker and an error log line. -/
theorem c8_create_topic_swallows_witness :
    create_topic (some "t") "b" none none "end" none none none none none none none
        (fun _ _ => Except.error "timeout")
      = (none, ["Error creating topic " ++ pyStr (some "t") ++ ": " ++ "timeout"]) :=
  (c8_create_topic_swallows (some "t") "b" none none "end" none none none none
    none none none (fun _ _ => Except.error "timeout") Json.null "timeout").2 rfl

/-- C9: for every topic with a non-empty image URL and image position
start (respectively end), the image markdown is prepended (respectively
appended) to the formatted body in the raw payload field, joined by
exactly one blank line on the specified side, the rest of the body
unchanged. -/
theorem c9_image_start_end (title : Option String) (body url : String)
    (category : Option Int) (fmt : Option Formatting) (eu ei : Option String)
    (hurl : url ≠ "") :
    getRaw (create_topic_payload title body category (some url) "start" fmt eu ei)
        = some (Json.str ("![Image](" ++ url ++ ")" ++ "\n\n" ++ applyFormatting fmt body)) ∧
    getRaw (create_topic_payload title body category (some url) "end" fmt eu ei)
        = some (Json.str (applyFormatting fmt body ++ "\n\n" ++ ("![Image](" ++ url ++ ")"))) := by
  have h : (url == "") = false := url_beq_false hurl
  constructor <;>
    rw [getRaw_create_topic_payload] <;>
    simp only [insertImage, h, Bool.false_eq_true, if_false] <;>
    rfl

/-- C9 witness: the theorem applied at a concrete topic and URL. -/
theorem c9_image_start_end_witness :
    getRaw (create_topic_payload (some "t") "b" none (some "u") "start" none none none)
        = some (Json.str ("![Image](" ++ "u" ++ ")" ++ "\n\n" ++ applyFormatting none "b")) ∧
    getRaw (create_topic_payload (some "t") "b" none (some "u") "end" none none none)
        = some (Json.str (applyFormatting none "b" ++ "\n\n" ++ ("![Image](" ++ "u" ++ ")"))) :=
  c9_image_start_end (some "t") "b" "u" none none none none (by decide)

/-- C10 (implicit): the batch report discriminates success from failure by
Python truthiness of the per-topic result, not by comparison with None: a
submission that succeeds with a falsy parsed response (here the empty JSON
object) is logged with the same failure line as a submission that raised,
indistinguishably. -/
theorem c10_falsy_success_logged_failed (t : Topic) (e : String) :
    add_multiple_topics [t] [] (fun _ _ _ => Except.ok (Json.obj [])) none none
        = Except.ok ["Failed to create topic " ++ pyStr t.title] ∧
    add_multiple_topics [t] [] (fun _ _ _ => Except.error e) none none
        = Except.ok ["Failed to create topic " ++ pyStr t.title] :=
  ⟨rfl, rfl⟩

end DiscoursePosts
